import Mathlib

/-!
Verification of the stock comparison utility (`stock_analysis.py`).

The program has three functions:
* `load_and_prepare_data` — checks the two CSV files exist, reads them,
  validates the required columns, filters each table to one stock code,
  parses the trade dates of the retained rows, tags provenance
  ("处理前" = RAW/unprocessed, "处理后" = PROCESSED), projects to
  (trade_date, close, type) and concatenates unprocessed-then-processed.
* `create_comparison_chart` — builds an altair chart from the combined
  table and saves it when `output_file` is truthy (non-None, non-empty).
* `compare_stock_data` — entry point: validates the period label, fills
  in a default output path when none is given, then runs load + chart.

The embedding models the filesystem as a function `String → Option Table`
(`none` = the path does not exist; `some t` = the path exists and
`pd.read_csv` yields the table `t`), and date parsing (`pd.to_datetime`,
an external library call) as a function `String → Option Nat` supplied as
a parameter.  Every raise site of the Python code becomes a distinct
error constructor carrying the information the raised message carries,
together with the Python exception class it belongs to.  Side effects
(existence checks, CSV reads, chart saves, prints) are made explicit as
an event trace returned next to the result.
-/

set_option autoImplicit false

namespace StockAnalysis

/-- A source row as read by `pd.read_csv`: the three required fields.
Additional CSV columns are ignored by the program, so they are not
modelled on rows; the schema check operates on the table's column list. -/
structure Row where
  stock_code : Int
  trade_date : String
  close : Rat
deriving DecidableEq, Repr

/-- A parsed CSV file: its header (column names) and its ordered rows. -/
structure Table where
  columns : List String
  rows : List Row
deriving DecidableEq, Repr

/-- A Comparison Record: the projection kept for plotting
(lines 69–70 of the source), with `trade_date` already parsed to a
calendar date (represented abstractly as the `Nat` produced by the
date-parsing function) and `type` the provenance tag. -/
structure CompRecord where
  trade_date : Nat
  close : Rat
  type : String
deriving DecidableEq, Repr

/-- Provenance tag of the unprocessed (raw) source, line 66. -/
def rawTag : String := "处理前"

/-- Provenance tag of the processed source, line 65. -/
def processedTag : String := "处理后"

/-- The Python exception class an error belongs to. -/
inductive PyClass where
  | fileNotFoundError
  | valueError
deriving DecidableEq, Repr

/-- The raise sites of `load_and_prepare_data`, one constructor each:
* `fileNotFound` — lines 35/37, `FileNotFoundError` naming the file role
  ("处理后的数据文件不存在"/"处理前的数据文件不存在") and the path;
* `missingColumns` — line 48, `ValueError` naming the table
  ("处理后数据"/"处理前数据") and the missing required columns;
* `stockNotFound` — lines 56/58, `ValueError` naming the table and the
  requested stock code;
* `dateParse` — raised inside `pd.to_datetime` (lines 61–62) for an
  unparseable date string; pandas date-parse errors subclass
  `ValueError`. -/
inductive LoadError where
  | fileNotFound (label : String) (path : String)
  | missingColumns (tableName : String) (cols : List String)
  | stockNotFound (tableName : String) (code : Int)
  | dateParse (s : String)
deriving DecidableEq, Repr

/-- The Python exception class of each `load_and_prepare_data` error. -/
def LoadError.pyClass : LoadError → PyClass
  | .fileNotFound _ _ => .fileNotFoundError
  | .missingColumns _ _ => .valueError
  | .stockNotFound _ _ => .valueError
  | .dateParse _ => .valueError

/-- Errors of the entry point `compare_stock_data`: the period-label
validation error (line 168, a `ValueError`) or a propagated loader
error. -/
inductive TopError where
  | validation
  | load (e : LoadError)
deriving DecidableEq, Repr

/-- Observable side effects, in program order: `os.path.exists` calls,
`pd.read_csv` calls, `chart.save` calls and `print` calls. -/
inductive IOEvent where
  | existsCheck (path : String)
  | readCsv (path : String)
  | saveChart (path : String)
  | printed (msg : String)
deriving DecidableEq, Repr

/-- The required columns, line 44 of the source. -/
def requiredColumns : List String := ["stock_code", "trade_date", "close"]

/-- The required columns absent from a table's header (line 46). -/
def missingCols (t : Table) : List String :=
  requiredColumns.filter (fun c => !(t.columns.contains c))

/-- Rows of a table whose `stock_code` equals the requested code
(lines 51–52); `List.filter` keeps the source order. -/
def filterStock (t : Table) (code : Int) : List Row :=
  t.rows.filter (fun r => r.stock_code == code)

/-- `pd.to_datetime` over the `trade_date` column of the retained rows
(lines 61–62): parses every date, keeping `close` next to it; fails with
the first unparseable date string. -/
def parseRows (parseDate : String → Option Nat) : List Row → Except String (List (Nat × Rat))
  | [] => .ok []
  | r :: rs =>
    match parseDate r.trade_date with
    | none => .error r.trade_date
    | some d => (parseRows parseDate rs).map (fun t => (d, r.close) :: t)

/-- Attach a provenance tag, turning parsed (date, close) pairs into
Comparison Records (lines 65–70). -/
def tagProject (parsed : List (Nat × Rat)) (tag : String) : List CompRecord :=
  parsed.map (fun p => ⟨p.1, p.2, tag⟩)

/-- The pure part of `load_and_prepare_data` after both files have been
read: schema validation (lines 44–48, processed table checked first),
stock-code filtering and emptiness checks (lines 51–58), date parsing of
the retained rows (lines 61–62, processed column first), tagging,
projection and concatenation unprocessed-then-processed (lines 64–75). -/
def loadCore (parseDate : String → Option Nat) (df_processed df_unprocessed : Table)
    (stock_code : Int) : Except LoadError (List CompRecord) :=
  if missingCols df_processed ≠ [] then
    .error (.missingColumns "处理后数据" (missingCols df_processed))
  else if missingCols df_unprocessed ≠ [] then
    .error (.missingColumns "处理前数据" (missingCols df_unprocessed))
  else if filterStock df_processed stock_code = [] then
    .error (.stockNotFound "处理后数据" stock_code)
  else if filterStock df_unprocessed stock_code = [] then
    .error (.stockNotFound "处理前数据" stock_code)
  else
    match parseRows parseDate (filterStock df_processed stock_code) with
    | .error s => .error (.dateParse s)
    | .ok procParsed =>
      match parseRows parseDate (filterStock df_unprocessed stock_code) with
      | .error s => .error (.dateParse s)
      | .ok unprocParsed =>
        .ok (tagProject unprocParsed rawTag ++ tagProject procParsed processedTag)

/-- The diagnostic printed by the `except` handler before re-raising
(line 78). -/
def loadErrorMsg : String := "数据加载和处理过程中出现错误"

/-- `load_and_prepare_data` (lines 7–79): existence checks in order
(processed path first), CSV reads, then the pure pipeline; any failure is
logged (one `print`) and re-raised.  Returns the result together with the
trace of side effects.  The `period_type` parameter is accepted but never
used, exactly as in the source. -/
def load_and_prepare_data (fs : String → Option Table) (parseDate : String → Option Nat)
    (processed_file unprocessed_file : String) (stock_code : Int) (period_type : String) :
    Except LoadError (List CompRecord) × List IOEvent :=
  match fs processed_file with
  | none =>
    (.error (.fileNotFound "处理后的数据文件不存在" processed_file),
     [.existsCheck processed_file, .printed loadErrorMsg])
  | some df_processed =>
    match fs unprocessed_file with
    | none =>
      (.error (.fileNotFound "处理前的数据文件不存在" unprocessed_file),
       [.existsCheck processed_file, .existsCheck unprocessed_file, .printed loadErrorMsg])
    | some df_unprocessed =>
      let reads : List IOEvent :=
        [.existsCheck processed_file, .existsCheck unprocessed_file,
         .readCsv processed_file, .readCsv unprocessed_file]
      match loadCore parseDate df_processed df_unprocessed stock_code with
      | .error e => (.error e, reads ++ [.printed loadErrorMsg])
      | .ok t => (.ok t, reads)

/-- The chart title, line 121 of the source. -/
def chartTitle (stock_code : Int) (period_type : String) : String :=
  "股票 " ++ toString stock_code ++ "：" ++ period_type ++ "处理前后收盘价对比"

/-- The altair chart as far as the claims observe it: the data it was
built from, its title and its interactivity flag (the encodings and the
line/point layers are pure library configuration). -/
structure Chart where
  data : List CompRecord
  title : String
  interactive : Bool
deriving DecidableEq, Repr

/-- `create_comparison_chart` (lines 82–135): builds the chart and, when
`output_file` is truthy in Python's sense (not `None` and not the empty
string, line 131 `if output_file:`), saves it to that path and prints the
location.  Returns the chart and the trace of side effects. -/
def create_comparison_chart (df_combined : List CompRecord) (stock_code : Int)
    (period_type : String) (output_file : Option String) : Chart × List IOEvent :=
  let chart : Chart := ⟨df_combined, chartTitle stock_code period_type, true⟩
  match output_file with
  | some s =>
    if s ≠ "" then (chart, [.saveChart s, .printed ("图表已保存至: " ++ s)])
    else (chart, [])
  | none => (chart, [])

/-- The auto-generated output path of `compare_stock_data`, line 172. -/
def autoOutputFile (stock_code : Int) (period_type : String) : String :=
  "stock_" ++ toString stock_code ++ "_" ++ period_type ++ "_comparison_chart.json"

/-- The recognized period labels, line 167. -/
def validPeriods : List String := ["周线", "日线"]

/-- `compare_stock_data` (lines 138–193): validates the period label
before anything else (lines 166–168); substitutes the auto-generated
output path only when `output_file` is `None` (lines 171–172); prints a
start message, loads, charts, prints a completion message.  Returns the
result with the full side-effect trace. -/
def compare_stock_data (fs : String → Option Table) (parseDate : String → Option Nat)
    (stock_code : Int) (processed_file unprocessed_file : String)
    (period_type : String) (output_file : Option String) :
    Except TopError Chart × List IOEvent :=
  if period_type ∉ validPeriods then (.error .validation, [])
  else
    let out : String :=
      match output_file with
      | none => autoOutputFile stock_code period_type
      | some s => s
    let startEv : IOEvent := .printed "开始处理数据对比"
    match load_and_prepare_data fs parseDate processed_file unprocessed_file
        stock_code period_type with
    | (.error e, tr) => (.error (.load e), startEv :: tr)
    | (.ok df, tr) =>
      let cw := create_comparison_chart df stock_code period_type (some out)
      (.ok cw.1, startEv :: tr ++ cw.2 ++ [.printed "数据对比图表生成完成"])

/-- The chart-file writes contained in an event trace. -/
def writesOf (events : List IOEvent) : List String :=
  events.filterMap (fun e => match e with | .saveChart p => some p | _ => none)

/-! ### Helper lemmas -/

theorem parseRows_ok_forall (pd : String → Option Nat) (rows : List Row)
    (l : List (Nat × Rat)) (h : parseRows pd rows = .ok l) :
    List.Forall₂ (fun (p : Nat × Rat) (r : Row) =>
      pd r.trade_date = some p.1 ∧ p.2 = r.close) l rows := by
  induction rows generalizing l with
  | nil =>
    simp only [parseRows, Except.ok.injEq] at h
    subst h
    exact List.Forall₂.nil
  | cons r rs ih =>
    simp only [parseRows] at h
    cases hd : pd r.trade_date with
    | none => rw [hd] at h; exact absurd h (by simp)
    | some d =>
      rw [hd] at h
      cases hrec : parseRows pd rs with
      | error s => rw [hrec] at h; exact absurd h (by simp [Except.map])
      | ok tl =>
        rw [hrec] at h
        simp only [Except.map, Except.ok.injEq] at h
        subst h
        exact List.Forall₂.cons ⟨hd, rfl⟩ (ih tl hrec)

theorem parseRows_ok_length (pd : String → Option Nat) (rows : List Row)
    (l : List (Nat × Rat)) (h : parseRows pd rows = .ok l) :
    l.length = rows.length :=
  (parseRows_ok_forall pd rows l h).length_eq

theorem parseRows_ok_of_all (pd : String → Option Nat) (rows : List Row)
    (h : ∀ r ∈ rows, (pd r.trade_date).isSome) :
    ∃ l, parseRows pd rows = .ok l := by
  induction rows with
  | nil => exact ⟨[], rfl⟩
  | cons r rs ih =>
    obtain ⟨d, hd⟩ := Option.isSome_iff_exists.mp (h r (by simp))
    obtain ⟨tl, htl⟩ := ih (fun x hx => h x (by simp [hx]))
    exact ⟨(d, r.close) :: tl, by simp [parseRows, hd, htl, Except.map]⟩

theorem parseRows_error_mem (pd : String → Option Nat) (rows : List Row)
    (s : String) (h : parseRows pd rows = .error s) :
    ∃ r ∈ rows, r.trade_date = s ∧ pd s = none := by
  induction rows with
  | nil => simp [parseRows] at h
  | cons r rs ih =>
    simp only [parseRows] at h
    cases hd : pd r.trade_date with
    | none =>
      rw [hd] at h
      simp only [Except.error.injEq] at h
      subst h
      exact ⟨r, by simp, rfl, hd⟩
    | some d =>
      rw [hd] at h
      cases hrec : parseRows pd rs with
      | error s2 =>
        rw [hrec] at h
        simp only [Except.map, Except.error.injEq] at h
        subst h
        obtain ⟨x, hx, hxs⟩ := ih hrec
        exact ⟨x, by simp [hx], hxs⟩
      | ok tl => rw [hrec] at h; simp [Except.map] at h

theorem loadCore_ok_iff (pd : String → Option Nat) (dfp dfu : Table) (code : Int)
    (t : List CompRecord) :
    loadCore pd dfp dfu code = .ok t ↔
      missingCols dfp = [] ∧ missingCols dfu = [] ∧
      filterStock dfp code ≠ [] ∧ filterStock dfu code ≠ [] ∧
      ∃ pp pu, parseRows pd (filterStock dfp code) = .ok pp ∧
        parseRows pd (filterStock dfu code) = .ok pu ∧
        t = tagProject pu rawTag ++ tagProject pp processedTag := by
  unfold loadCore
  split_ifs with h1 h2 h3 h4
  · simp [h1]
  · simp [h2]
  · simp [h3]
  · simp [h4]
  · cases hp : parseRows pd (filterStock dfp code) with
    | error s => simp [hp, not_not.mp h1, not_not.mp h2, h3, h4]
    | ok pp =>
      cases hu : parseRows pd (filterStock dfu code) with
      | error s => simp [hp, hu, not_not.mp h1, not_not.mp h2, h3, h4]
      | ok pu =>
        simp only [hp, hu, Except.ok.injEq, not_not.mp h1, not_not.mp h2, h3, h4,
          ne_eq, not_false_eq_true, true_and]
        constructor
        · intro h; exact ⟨pp, pu, rfl, rfl, h.symm⟩
        · rintro ⟨pp2, pu2, hpp, hpu, ht⟩
          obtain rfl : pp2 = pp := by simpa using hpp.symm
          obtain rfl : pu2 = pu := by simpa using hpu.symm
          exact ht.symm

theorem load_fst_eq (fs : String → Option Table) (pd : String → Option Nat)
    (p u : String) (code : Int) (pt : String) (dfp dfu : Table)
    (hp : fs p = some dfp) (hu : fs u = some dfu) :
    (load_and_prepare_data fs pd p u code pt).1 = loadCore pd dfp dfu code := by
  unfold load_and_prepare_data
  rw [hp, hu]
  cases h : loadCore pd dfp dfu code <;> simp [h]

theorem parseRows_ok_all (pd : String → Option Nat) (rows : List Row)
    (l : List (Nat × Rat)) (h : parseRows pd rows = .ok l) :
    ∀ r ∈ rows, (pd r.trade_date).isSome := by
  induction rows generalizing l with
  | nil => simp
  | cons r rs ih =>
    simp only [parseRows] at h
    cases hd : pd r.trade_date with
    | none => rw [hd] at h; exact absurd h (by simp)
    | some d =>
      rw [hd] at h
      cases hrec : parseRows pd rs with
      | error s => rw [hrec] at h; exact absurd h (by simp [Except.map])
      | ok tl =>
        intro x hx
        rcases List.mem_cons.mp hx with rfl | hx2
        · simp [hd]
        · exact ih tl hrec x hx2

theorem forall₂_mem_left {α β : Type} {R : α → β → Prop} {l : List α} {l2 : List β}
    (h : List.Forall₂ R l l2) {x : α} (hx : x ∈ l) : ∃ y ∈ l2, R x y := by
  induction h with
  | nil => simp at hx
  | cons hr _ ih =>
    rcases List.mem_cons.mp hx with rfl | hx2
    · exact ⟨_, by simp, hr⟩
    · obtain ⟨y, hy, hRy⟩ := ih hx2
      exact ⟨y, by simp [hy], hRy⟩

theorem loadCore_parse_phase (pd : String → Option Nat) (dfp dfu : Table) (code : Int)
    (hcp : missingCols dfp = []) (hcu : missingCols dfu = [])
    (hfp : filterStock dfp code ≠ []) (hfu : filterStock dfu code ≠ []) :
    loadCore pd dfp dfu code =
      match parseRows pd (filterStock dfp code) with
      | .error s => .error (.dateParse s)
      | .ok pp =>
        match parseRows pd (filterStock dfu code) with
        | .error s => .error (.dateParse s)
        | .ok pu => .ok (tagProject pu rawTag ++ tagProject pp processedTag) := by
  unfold loadCore
  simp [hcp, hcu, hfp, hfu]

theorem mem_filterStock (t : Table) (code : Int) (r : Row) (h : r ∈ filterStock t code) :
    r ∈ t.rows ∧ r.stock_code = code := by
  unfold filterStock at h
  obtain ⟨h1, h2⟩ := List.mem_filter.mp h
  exact ⟨h1, by simpa using h2⟩

/-! ### Concrete fixtures, used to exercise the theorems -/

/-- A date-parsing function recognizing exactly two date strings. -/
def fixParseDate : String → Option Nat :=
  fun s => if s = "2024-01-01" then some 1 else if s = "2024-01-08" then some 2 else none

/-- An unprocessed source: two rows for stock 920225 and one row for
stock 7 whose date `fixParseDate` cannot parse. -/
def tblU : Table :=
  ⟨["stock_code", "trade_date", "close"],
   [⟨920225, "2024-01-01", 10⟩, ⟨920225, "2024-01-08", 11⟩, ⟨7, "bad-date", 99⟩]⟩

/-- A processed source: two rows for stock 920225. -/
def tblP : Table :=
  ⟨["stock_code", "trade_date", "close"],
   [⟨920225, "2024-01-01", 9⟩, ⟨920225, "2024-01-08", 12⟩]⟩

/-- A processed source missing the `close` column. -/
def tblNoClose : Table := ⟨["stock_code", "trade_date"], []⟩

/-- A filesystem holding the two well-formed sources. -/
def fixFs : String → Option Table :=
  fun s => if s = "p.csv" then some tblP else if s = "u.csv" then some tblU else none

/-- A filesystem whose processed source lacks the `close` column. -/
def fixFsNoClose : String → Option Table :=
  fun s => if s = "p.csv" then some tblNoClose else if s = "u.csv" then some tblU else none

/-- The Comparison Table `load_and_prepare_data` produces from `fixFs`
for stock 920225: RAW rows of `tblU` first, then PROCESSED rows of
`tblP`. -/
def fixCombined : List CompRecord :=
  [⟨1, 10, rawTag⟩, ⟨2, 11, rawTag⟩, ⟨1, 9, processedTag⟩, ⟨2, 12, processedTag⟩]

theorem writesOf_append (a b : List IOEvent) :
    writesOf (a ++ b) = writesOf a ++ writesOf b := by
  simp [writesOf]

theorem load_no_writes (fs : String → Option Table) (pd : String → Option Nat)
    (p u : String) (code : Int) (pt : String) :
    writesOf (load_and_prepare_data fs pd p u code pt).2 = [] := by
  unfold load_and_prepare_data
  cases hp : fs p with
  | none => simp [writesOf]
  | some dfp =>
    cases hu : fs u with
    | none => simp [writesOf]
    | some dfu =>
      cases h : loadCore pd dfp dfu code <;> simp [h, writesOf]

theorem create_chart_writes (df : List CompRecord) (code : Int) (pt : String)
    (out : Option String) :
    writesOf (create_comparison_chart df code pt out).2 =
      (match out with
       | some s => if s ≠ "" then [s] else []
       | none => []) := by
  cases out with
  | none => rfl
  | some s =>
    by_cases h : s = ""
    · subst h; rfl
    · simp [create_comparison_chart, writesOf, h]

theorem autoOutputFile_ne_empty (code : Int) (pt : String) :
    autoOutputFile code pt ≠ "" := by
  intro h
  have hd := congrArg String.data h
  simp only [autoOutputFile] at hd
  rw [String.data_append, String.data_append, String.data_append,
    String.data_append] at hd
  simp at hd

/-! ### The claims -/

/-- C1: for every pair of source tables that both contain rows for the
requested stock code and pass all validation (files exist, required
columns present, every retained trade date parses), load returns a
Comparison Table whose length equals the number of rows matching the
code in the unprocessed source plus the number of rows matching the code
in the processed source. -/
theorem C1_load_length (fs : String → Option Table) (pd : String → Option Nat)
    (p u : String) (code : Int) (pt : String) (dfp dfu : Table)
    (hp : fs p = some dfp) (hu : fs u = some dfu)
    (hcp : missingCols dfp = []) (hcu : missingCols dfu = [])
    (hfp : filterStock dfp code ≠ []) (hfu : filterStock dfu code ≠ [])
    (hdp : ∀ r ∈ filterStock dfp code, (pd r.trade_date).isSome)
    (hdu : ∀ r ∈ filterStock dfu code, (pd r.trade_date).isSome) :
    ∃ t, (load_and_prepare_data fs pd p u code pt).1 = .ok t ∧
      t.length = (filterStock dfu code).length + (filterStock dfp code).length := by
  obtain ⟨pp, hpp⟩ := parseRows_ok_of_all pd _ hdp
  obtain ⟨pu2, hpu2⟩ := parseRows_ok_of_all pd _ hdu
  refine ⟨tagProject pu2 rawTag ++ tagProject pp processedTag, ?_, ?_⟩
  · rw [load_fst_eq fs pd p u code pt dfp dfu hp hu]
    exact (loadCore_ok_iff pd dfp dfu code _).mpr ⟨hcp, hcu, hfp, hfu, pp, pu2, hpp, hpu2, rfl⟩
  · simp [tagProject, parseRows_ok_length pd _ _ hpp, parseRows_ok_length pd _ _ hpu2]

/-- Witness for C1: both fixture sources hold two rows for stock 920225,
and the returned table has length 2 + 2. -/
theorem C1_load_length_witness :
    ∃ t, (load_and_prepare_data fixFs fixParseDate "p.csv" "u.csv" 920225 "周线").1 = .ok t ∧
      t.length = (filterStock tblU 920225).length + (filterStock tblP 920225).length :=
  C1_load_length fixFs fixParseDate "p.csv" "u.csv" 920225 "周线" tblP tblU rfl rfl rfl rfl
    (by decide) (by decide) (by decide) (by decide)

/-- C2: every Comparison Table returned by load splits into the RAW
group followed by the PROCESSED group; each group is derived elementwise,
in order, from the rows of its origin file matching the code, and the
filtered row lists are order-preserving sublists of the source rows — so
provenance matches origin, RAW precedes PROCESSED, relative source order
is kept in each group and nothing is re-sorted by date. -/
theorem C2_provenance_and_order (fs : String → Option Table) (pd : String → Option Nat)
    (p u : String) (code : Int) (pt : String) (dfp dfu : Table) (t : List CompRecord)
    (hp : fs p = some dfp) (hu : fs u = some dfu)
    (hok : (load_and_prepare_data fs pd p u code pt).1 = .ok t) :
    ∃ a b, t = a ++ b ∧
      (∀ r ∈ a, r.type = rawTag) ∧ (∀ r ∈ b, r.type = processedTag) ∧
      List.Forall₂ (fun (cr : CompRecord) (row : Row) =>
        pd row.trade_date = some cr.trade_date ∧ cr.close = row.close)
        a (filterStock dfu code) ∧
      List.Forall₂ (fun (cr : CompRecord) (row : Row) =>
        pd row.trade_date = some cr.trade_date ∧ cr.close = row.close)
        b (filterStock dfp code) ∧
      List.Sublist (filterStock dfu code) dfu.rows ∧
      List.Sublist (filterStock dfp code) dfp.rows := by
  rw [load_fst_eq fs pd p u code pt dfp dfu hp hu] at hok
  obtain ⟨-, -, -, -, pp, pu2, hpp, hpu2, ht⟩ := (loadCore_ok_iff pd dfp dfu code t).mp hok
  subst ht
  refine ⟨tagProject pu2 rawTag, tagProject pp processedTag, rfl, ?_, ?_, ?_, ?_,
    List.filter_sublist _, List.filter_sublist _⟩
  · intro r hr
    obtain ⟨x, -, rfl⟩ := List.mem_map.mp hr
    rfl
  · intro r hr
    obtain ⟨x, -, rfl⟩ := List.mem_map.mp hr
    rfl
  · rw [tagProject, List.forall₂_map_left_iff]
    exact (parseRows_ok_forall pd _ _ hpu2).imp (fun a b h => ⟨h.1, h.2⟩)
  · rw [tagProject, List.forall₂_map_left_iff]
    exact (parseRows_ok_forall pd _ _ hpp).imp (fun a b h => ⟨h.1, h.2⟩)

/-- Witness for C2 at the fixtures: the returned table is the two RAW
records of `tblU` followed by the two PROCESSED records of `tblP`. -/
theorem C2_provenance_and_order_witness :
    ∃ a b, fixCombined = a ++ b ∧
      (∀ r ∈ a, r.type = rawTag) ∧ (∀ r ∈ b, r.type = processedTag) ∧
      List.Forall₂ (fun (cr : CompRecord) (row : Row) =>
        fixParseDate row.trade_date = some cr.trade_date ∧ cr.close = row.close)
        a (filterStock tblU 920225) ∧
      List.Forall₂ (fun (cr : CompRecord) (row : Row) =>
        fixParseDate row.trade_date = some cr.trade_date ∧ cr.close = row.close)
        b (filterStock tblP 920225) ∧
      List.Sublist (filterStock tblU 920225) tblU.rows ∧
      List.Sublist (filterStock tblP 920225) tblP.rows :=
  C2_provenance_and_order fixFs fixParseDate "p.csv" "u.csv" 920225 "周线" tblP tblU
    fixCombined rfl rfl rfl

/-- C3: every record of a Comparison Table returned by load is derived
from a source row — of one of the two files — whose `stock_code` equals
the requested code; no other stock code contributes a record. -/
theorem C3_only_requested_code (fs : String → Option Table) (pd : String → Option Nat)
    (p u : String) (code : Int) (pt : String) (dfp dfu : Table) (t : List CompRecord)
    (hp : fs p = some dfp) (hu : fs u = some dfu)
    (hok : (load_and_prepare_data fs pd p u code pt).1 = .ok t) :
    ∀ cr ∈ t, ∃ row, (row ∈ dfu.rows ∨ row ∈ dfp.rows) ∧ row.stock_code = code ∧
      pd row.trade_date = some cr.trade_date ∧ cr.close = row.close := by
  rw [load_fst_eq fs pd p u code pt dfp dfu hp hu] at hok
  obtain ⟨-, -, -, -, pp, pu2, hpp, hpu2, ht⟩ := (loadCore_ok_iff pd dfp dfu code t).mp hok
  subst ht
  intro cr hcr
  rcases List.mem_append.mp hcr with hcr2 | hcr2
  · obtain ⟨x, hx, rfl⟩ := List.mem_map.mp hcr2
    obtain ⟨row, hrow, hR⟩ := forall₂_mem_left (parseRows_ok_forall pd _ _ hpu2) hx
    obtain ⟨hmem, hcode⟩ := mem_filterStock dfu code row hrow
    exact ⟨row, Or.inl hmem, hcode, hR.1, hR.2⟩
  · obtain ⟨x, hx, rfl⟩ := List.mem_map.mp hcr2
    obtain ⟨row, hrow, hR⟩ := forall₂_mem_left (parseRows_ok_forall pd _ _ hpp) hx
    obtain ⟨hmem, hcode⟩ := mem_filterStock dfp code row hrow
    exact ⟨row, Or.inr hmem, hcode, hR.1, hR.2⟩

/-- Witness for C3: the first record of the fixture table traces back to
a source row carrying stock code 920225. -/
theorem C3_only_requested_code_witness :
    ∃ row, (row ∈ tblU.rows ∨ row ∈ tblP.rows) ∧ row.stock_code = 920225 ∧
      fixParseDate row.trade_date = some (1 : Nat) ∧ (10 : Rat) = row.close :=
  C3_only_requested_code fixFs fixParseDate "p.csv" "u.csv" 920225 "周线" tblP tblU
    fixCombined rfl rfl rfl ⟨1, 10, rawTag⟩ (by decide)

/-- C4: when either source table lacks a required column among
stock_code, trade_date, close, load fails — returning no table — with
the schema error (`ValueError`, the spec's SchemaError) naming the
offending table (the processed one is checked first) and exactly its
missing required columns. -/
theorem C4_schema_error (fs : String → Option Table) (pd : String → Option Nat)
    (p u : String) (code : Int) (pt : String) (dfp dfu : Table)
    (hp : fs p = some dfp) (hu : fs u = some dfu)
    (hmiss : missingCols dfp ≠ [] ∨ missingCols dfu ≠ []) :
    (load_and_prepare_data fs pd p u code pt).1 =
      (if missingCols dfp ≠ [] then
        .error (.missingColumns "处理后数据" (missingCols dfp))
       else .error (.missingColumns "处理前数据" (missingCols dfu))) := by
  rw [load_fst_eq fs pd p u code pt dfp dfu hp hu]
  unfold loadCore
  by_cases h1 : missingCols dfp ≠ []
  · simp [h1]
  · have h2 : missingCols dfu ≠ [] := hmiss.resolve_left h1
    simp [h1, h2]

/-- Witness for C4: the fixture whose processed source lacks `close`
triggers the schema error naming that table and that column. -/
theorem C4_schema_error_witness :
    (load_and_prepare_data fixFsNoClose fixParseDate "p.csv" "u.csv" 920225 "周线").1 =
      (if missingCols tblNoClose ≠ [] then
        Except.error (.missingColumns "处理后数据" (missingCols tblNoClose))
       else .error (.missingColumns "处理前数据" (missingCols tblU))) :=
  C4_schema_error fixFsNoClose fixParseDate "p.csv" "u.csv" 920225 "周线" tblNoClose tblU
    rfl rfl (Or.inl (by decide))

/-- C5 counterexample: the claim says the zero-rows failure is the same
error kind as the missing-file failure.  On the code it is not: with
both files present, valid schema, and no rows for stock 555 in the
processed source, load raises a `ValueError` (stock-code-not-found),
while a missing file raises a `FileNotFoundError` — different Python
exception classes. -/
theorem C5_counterexample :
    (load_and_prepare_data fixFs fixParseDate "p.csv" "u.csv" 555 "周线").1 =
      .error (.stockNotFound "处理后数据" 555) ∧
    (load_and_prepare_data fixFs fixParseDate "missing.csv" "u.csv" 555 "周线").1 =
      .error (.fileNotFound "处理后的数据文件不存在" "missing.csv") ∧
    LoadError.pyClass (.stockNotFound "处理后数据" 555) ≠
      LoadError.pyClass (.fileNotFound "处理后的数据文件不存在" "missing.csv") :=
  ⟨rfl, rfl, by decide⟩

/-- C5 (amended): when filtering either source by the requested stock
code yields zero rows (files present, schema valid), load fails —
returning no table — with a `ValueError` reporting which source and
which code; this is a different Python exception class from the
`FileNotFoundError` used for a missing file, not the same kind. -/
theorem C5_no_rows_error (fs : String → Option Table) (pd : String → Option Nat)
    (p u : String) (code : Int) (pt : String) (dfp dfu : Table)
    (hp : fs p = some dfp) (hu : fs u = some dfu)
    (hcp : missingCols dfp = []) (hcu : missingCols dfu = [])
    (hempty : filterStock dfp code = [] ∨ filterStock dfu code = []) :
    ∃ name, (load_and_prepare_data fs pd p u code pt).1 =
        .error (.stockNotFound name code) ∧
      (if filterStock dfp code = [] then name = "处理后数据" else name = "处理前数据") ∧
      LoadError.pyClass (.stockNotFound name code) = .valueError ∧
      ∀ lab path, LoadError.pyClass (.stockNotFound name code) ≠
        LoadError.pyClass (.fileNotFound lab path) := by
  rw [load_fst_eq fs pd p u code pt dfp dfu hp hu]
  unfold loadCore
  by_cases h1 : filterStock dfp code = []
  · exact ⟨"处理后数据", by simp [hcp, hcu, h1], by simp [h1], rfl,
      fun lab path => by simp [LoadError.pyClass]⟩
  · have h2 : filterStock dfu code = [] := hempty.resolve_left h1
    exact ⟨"处理前数据", by simp [hcp, hcu, h1, h2], by simp [h1], rfl,
      fun lab path => by simp [LoadError.pyClass]⟩

/-- Witness for C5 (amended): stock 555 appears in neither fixture
source; the processed one is reported. -/
theorem C5_no_rows_error_witness :
    ∃ name, (load_and_prepare_data fixFs fixParseDate "p.csv" "u.csv" 555 "周线").1 =
        .error (.stockNotFound name 555) ∧
      (if filterStock tblP 555 = [] then name = "处理后数据" else name = "处理前数据") ∧
      LoadError.pyClass (.stockNotFound name 555) = .valueError ∧
      ∀ lab path, LoadError.pyClass (.stockNotFound name 555) ≠
        LoadError.pyClass (.fileNotFound lab path) :=
  C5_no_rows_error fixFs fixParseDate "p.csv" "u.csv" 555 "周线" tblP tblU rfl rfl rfl rfl
    (Or.inl (by decide))

/-- C6: dates are parsed only for the rows retained by the stock-code
filter.  Under the earlier validations: if every retained row of both
sources parses, load succeeds — no hypothesis constrains the dates of
rows for other stock codes, so an unparseable date there never causes
failure — and if some retained row's date is unparseable, load fails
with the date ParseError, whose offending string is a retained row's
date. -/
theorem C6_parse_only_retained (fs : String → Option Table) (pd : String → Option Nat)
    (p u : String) (code : Int) (pt : String) (dfp dfu : Table)
    (hp : fs p = some dfp) (hu : fs u = some dfu)
    (hcp : missingCols dfp = []) (hcu : missingCols dfu = [])
    (hfp : filterStock dfp code ≠ []) (hfu : filterStock dfu code ≠ []) :
    ((∀ r ∈ filterStock dfp code, (pd r.trade_date).isSome) →
     (∀ r ∈ filterStock dfu code, (pd r.trade_date).isSome) →
     ∃ t, (load_and_prepare_data fs pd p u code pt).1 = .ok t) ∧
    ((∃ r ∈ filterStock dfp code ++ filterStock dfu code, pd r.trade_date = none) →
     ∃ s, (load_and_prepare_data fs pd p u code pt).1 = .error (.dateParse s) ∧
       pd s = none ∧ ∃ r ∈ filterStock dfp code ++ filterStock dfu code, r.trade_date = s) := by
  have hload := load_fst_eq fs pd p u code pt dfp dfu hp hu
  have hphase := loadCore_parse_phase pd dfp dfu code hcp hcu hfp hfu
  constructor
  · intro hdp hdu
    obtain ⟨pp, hpp⟩ := parseRows_ok_of_all pd _ hdp
    obtain ⟨pu2, hpu2⟩ := parseRows_ok_of_all pd _ hdu
    exact ⟨tagProject pu2 rawTag ++ tagProject pp processedTag,
      by rw [hload, hphase, hpp, hpu2]⟩
  · rintro ⟨r, hr, hnone⟩
    cases hpp : parseRows pd (filterStock dfp code) with
    | error s =>
      obtain ⟨x, hx, hxs, hsnone⟩ := parseRows_error_mem pd _ s hpp
      exact ⟨s, by rw [hload, hphase, hpp], hsnone, x, List.mem_append.mpr (Or.inl hx), hxs⟩
    | ok pp =>
      have hallp := parseRows_ok_all pd _ pp hpp
      have hru : r ∈ filterStock dfu code := by
        rcases List.mem_append.mp hr with h | h
        · exact absurd (hallp r h) (by simp [hnone])
        · exact h
      cases hpu2 : parseRows pd (filterStock dfu code) with
      | error s =>
        obtain ⟨x, hx, hxs, hsnone⟩ := parseRows_error_mem pd _ s hpu2
        exact ⟨s, by rw [hload, hphase, hpp, hpu2], hsnone, x,
          List.mem_append.mpr (Or.inr hx), hxs⟩
      | ok pu2 =>
        have := parseRows_ok_all pd _ pu2 hpu2 r hru
        simp [hnone] at this

/-- Witness for C6: `tblU` carries an unparseable date on a row for
stock 7, yet loading stock 920225 succeeds. -/
theorem C6_parse_only_retained_witness :
    ∃ t, (load_and_prepare_data fixFs fixParseDate "p.csv" "u.csv" 920225 "周线").1 = .ok t :=
  (C6_parse_only_retained fixFs fixParseDate "p.csv" "u.csv" 920225 "周线" tblP tblU
    rfl rfl rfl rfl (by decide) (by decide)).1 (by decide) (by decide)

/-- C7: for every period label outside the recognized values 周线 and
日线, the entry point fails with the validation `ValueError` and its
side-effect trace is empty — no existence check, no read, no write and
no print happens, whatever the filesystem contains. -/
theorem C7_validation_before_io (fs : String → Option Table) (pd : String → Option Nat)
    (code : Int) (p u pt : String) (out : Option String)
    (h : pt ∉ validPeriods) :
    compare_stock_data fs pd code p u pt out = (.error .validation, []) := by
  unfold compare_stock_data
  simp [h]

/-- Witness for C7 at the label 月线 (monthly), which is not
recognized. -/
theorem C7_validation_before_io_witness :
    compare_stock_data fixFs fixParseDate 920225 "p.csv" "u.csv" "月线" none =
      (.error .validation, []) :=
  C7_validation_before_io fixFs fixParseDate 920225 "p.csv" "u.csv" "月线" none (by decide)

/-- C8 counterexample: the claim says the renderer writes exactly one
file whenever an output path is given; but with the empty string as the
given path, the Python truthiness test `if output_file:` is false and
nothing is written. -/
theorem C8_counterexample :
    ¬ (writesOf (create_comparison_chart [] 920225 "周线" (some "")).2).length = 1 := by
  decide

/-- C8 (amended): for every Comparison Table and arguments the renderer
returns the chart built from the table in memory, and it writes exactly
one file — at the given path — when a non-empty output path is given;
when the path is `none` or the empty string, nothing at all is
written. -/
theorem C8_render_writes (df : List CompRecord) (code : Int) (pt : String)
    (out : Option String) :
    (create_comparison_chart df code pt out).1 = ⟨df, chartTitle code pt, true⟩ ∧
    writesOf (create_comparison_chart df code pt out).2 =
      (match out with
       | some s => if s ≠ "" then [s] else []
       | none => []) := by
  refine ⟨?_, create_chart_writes df code pt out⟩
  cases out with
  | none => rfl
  | some s =>
    by_cases h : s = ""
    · subst h; rfl
    · simp [create_comparison_chart, h]

/-- C9: the result of load — table or error, and even the side-effect
trace — is independent of the `period_type` argument: the parameter is
accepted but never used, so any two period labels give identical
outcomes on the same files and stock code. -/
theorem C9_period_type_unused (fs : String → Option Table) (pd : String → Option Nat)
    (p u : String) (code : Int) (pt1 pt2 : String) :
    load_and_prepare_data fs pd p u code pt1 = load_and_prepare_data fs pd p u code pt2 :=
  rfl

/-- C10 counterexample: the claim says every successful entry-point
invocation writes a chart file, the no-write branch being unreachable.
But the entry point substitutes the auto-generated path only when the
caller passes `None`; passing the empty string reaches the renderer's
no-write branch, and this successful invocation writes nothing. -/
theorem C10_counterexample :
    (compare_stock_data fixFs fixParseDate 920225 "p.csv" "u.csv" "周线" (some "")).1 =
      .ok ⟨fixCombined, chartTitle 920225 "周线", true⟩ ∧
    writesOf (compare_stock_data fixFs fixParseDate 920225 "p.csv" "u.csv" "周线" (some "")).2 =
      [] :=
  ⟨rfl, rfl⟩

/-- The chart files a successful entry-point run is expected to write:
the caller's non-empty path, the auto-generated path when the caller
passes none, and nothing for an empty-string path. -/
def expectedWrites (code : Int) (pt : String) (out : Option String) : List String :=
  match out with
  | none => [autoOutputFile code pt]
  | some s => if s ≠ "" then [s] else []

/-- C10 (amended): every successful entry-point invocation whose output
path is `none` or non-empty writes exactly one chart file: at the
caller's path when one is given non-empty, and at the substituted
auto-generated path `stock_(code)_(period)_comparison_chart.json` when
the caller passes none; only an empty-string output path reaches the
renderer's no-write branch. -/
theorem C10_entry_writes (fs : String → Option Table) (pd : String → Option Nat)
    (code : Int) (p u pt : String) (out : Option String) (c : Chart)
    (h : (compare_stock_data fs pd code p u pt out).1 = .ok c) :
    writesOf (compare_stock_data fs pd code p u pt out).2 = expectedWrites code pt out := by
  unfold compare_stock_data at h ⊢
  by_cases hpt : pt ∉ validPeriods
  · rw [if_pos hpt] at h
    exact absurd h (by simp)
  · rw [if_neg hpt] at h ⊢
    generalize hload : load_and_prepare_data fs pd p u code pt = lr at h ⊢
    obtain ⟨res, tr⟩ := lr
    cases res with
    | error e => exact absurd h (by simp)
    | ok df =>
      have htr := load_no_writes fs pd p u code pt
      rw [hload] at htr
      cases out with
      | none =>
        have hcw := create_chart_writes df code pt (some (autoOutputFile code pt))
        simp only [writesOf] at htr hcw ⊢
        simp [expectedWrites, List.filterMap_append, htr, hcw,
          autoOutputFile_ne_empty code pt]
      | some s =>
        have hcw := create_chart_writes df code pt (some s)
        simp only [writesOf] at htr hcw ⊢
        simp [expectedWrites, List.filterMap_append, htr, hcw]

/-- Witness for C10 (amended): the fixture run with no output path
writes exactly the auto-generated file. -/
theorem C10_entry_writes_witness :
    writesOf (compare_stock_data fixFs fixParseDate 920225 "p.csv" "u.csv" "周线" none).2 =
      expectedWrites 920225 "周线" none :=
  C10_entry_writes fixFs fixParseDate 920225 "p.csv" "u.csv" "周线" none
    ⟨fixCombined, chartTitle 920225 "周线", true⟩ rfl

end StockAnalysis
